import Mathlib

/-!
Shallow embedding of `webrtc/modules/desktop_capture/mouse_cursor_monitor_x11.cc`.

X11 window identifiers are modelled as `Nat`, with the X sentinel `None`
modelled as `xNone = 0`.  Native cursor pixels (`unsigned long`, possibly
64-bit) are modelled as `Nat`; the packed 32-bit destination pixels are
`Nat` values reduced modulo `2 ^ 32`.  Calls into Xlib are modelled by
passing their results explicitly (a query function for `XQueryTree`, a
`CursorFetch` record for `XFixesGetCursorImage` together with the error
recorded by the `XErrorTrap`, a `PointerQuery` record for `XQueryPointer`).
C `assert` failures are modelled as `Except` errors.
-/

namespace MouseCursorMonitor

/-- The X11 `None` sentinel (value 0). -/
def xNone : Nat := 0

/-- `XFixesCursorNotify` event offset from the XFixes event base. -/
def xFixesCursorNotify : Int := 1

/-- `XFixesDisplayCursorNotify` event subtype. -/
def xFixesDisplayCursorNotify : Nat := 0

/-- `MouseCursorMonitor::Mode`. -/
inductive Mode where
  | SHAPE_ONLY
  | SHAPE_AND_POSITION
deriving DecidableEq, Repr

/-- `MouseCursorMonitor::CursorState`. -/
inductive CursorPosState where
  | INSIDE
  | OUTSIDE
deriving DecidableEq, Repr

/-- The relevant fields of a native `XFixesCursorImage`: `width`, `height`,
`xhot`, `yhot` (all `unsigned short` in C, modelled as `Nat`) and the
native pixel buffer `pixels` (`unsigned long *`, modelled as `List Nat`). -/
structure XFixesCursorImage where
  width : Nat
  height : Nat
  xhot : Nat
  yhot : Nat
  pixels : List Nat
deriving DecidableEq, Repr

/-- The delivered `MouseCursor`: a `DesktopFrame` of size `width × height`
whose data is the packed 32-bit `bitmap`, plus the hotspot vector. -/
structure MouseCursor where
  width : Nat
  height : Nat
  bitmap : List Nat
  hotspot : Nat × Nat
deriving DecidableEq, Repr

/-- Result of `XFixesGetCursorImage` guarded by an `XErrorTrap`:
`img` is the returned image (`none` models a NULL return) and `errCode`
is the value of `error_trap.GetLastErrorAndDisable()`. -/
structure CursorFetch where
  img : Option XFixesCursorImage
  errCode : Nat
deriving DecidableEq, Repr

/-- Result of `XQueryPointer` guarded by an `XErrorTrap`: the `Bool`
return value, the reported root and child windows, the coordinates, and
the error recorded by the trap. -/
structure PointerQuery where
  result : Bool
  rootWindow : Nat
  childWindow : Nat
  rootX : Int
  rootY : Int
  winX : Int
  winY : Int
  errCode : Nat
deriving DecidableEq, Repr

/-- The fields of an `XEvent` that `HandleXEvent` inspects: the event
`type` and, for XFixes cursor events, the `subtype`. -/
structure XEventRec where
  type : Int
  subtype : Nat
deriving DecidableEq, Repr

/-- The member state of a `MouseCursorMonitorX11` instance:
`callback` models `callback_ != NULL`, the rest mirror the members
`mode_`, `window_`, `have_xfixes_`, `xfixes_event_base_`,
`xfixes_error_base_` and `cursor_shape_` (with `none` for a null
`scoped_ptr`). -/
structure MonitorState where
  callback : Bool
  mode : Mode
  window : Nat
  haveXfixes : Bool
  xfixesEventBase : Int
  xfixesErrorBase : Int
  cursorShape : Option MouseCursor
deriving DecidableEq, Repr

/-- The `MouseCursorMonitorX11` constructor: `callback_(NULL)`,
`mode_(SHAPE_AND_POSITION)`, `window_(window)`, `have_xfixes_(false)`,
`xfixes_event_base_(-1)`, `xfixes_error_base_(-1)`. -/
def mkMonitor (window : Nat) : MonitorState :=
  { callback := false
    mode := Mode.SHAPE_AND_POSITION
    window := window
    haveXfixes := false
    xfixesEventBase := -1
    xfixesErrorBase := -1
    cursorShape := none }

/-- The precondition failures the spec calls `InvalidStateError`
(`assert` in the C++ source). -/
inductive XErr where
  | invalidStateError
deriving DecidableEq, Repr

/-- The shape built by a successful `CaptureCursor` from a native image:
each of the `width * height` native pixels is cast to `uint32_t`
(reduction modulo `2 ^ 32`), and the hotspot is
`(std::min(width, xhot), std::min(height, yhot))`. -/
def shapeOfImage (img : XFixesCursorImage) : MouseCursor :=
  { width := img.width
    height := img.height
    bitmap := (img.pixels.take (img.width * img.height)).map (fun p => p % 2 ^ 32)
    hotspot := (min img.width img.xhot, min img.height img.yhot) }

/-- `MouseCursorMonitorX11::CaptureCursor`, as a function from the X
fetch result and the previous `cursor_shape_` slot to the new slot:
if the fetch returned NULL or the error trap recorded a non-zero error,
return without touching `cursor_shape_`; otherwise reset the slot to the
newly built cursor. -/
def captureCursor (f : CursorFetch) (pending : Option MouseCursor) :
    Option MouseCursor :=
  match f.img with
  | none => pending
  | some img =>
      if f.errCode ≠ 0 then pending
      else some (shapeOfImage img)

/-- `MouseCursorMonitorX11::HandleXEvent`: when `have_xfixes_` and the
event type is `xfixes_event_base_ + XFixesCursorNotify` with subtype
`XFixesDisplayCursorNotify`, run `CaptureCursor`; always return `false`. -/
def handleXEvent (ev : XEventRec) (f : CursorFetch) (s : MonitorState) :
    MonitorState × Bool :=
  if s.haveXfixes ∧ ev.type = s.xfixesEventBase + xFixesCursorNotify then
    if ev.subtype = xFixesDisplayCursorNotify then
      ({ s with cursorShape := captureCursor f s.cursorShape }, false)
    else (s, false)
  else (s, false)

/-- `SharedXDisplay::ProcessPendingXEvents` as it affects this monitor:
dispatch each pending event (paired with the X responses its handling
would observe) through `HandleXEvent`. -/
def processPendingXEvents (evs : List (XEventRec × CursorFetch))
    (s : MonitorState) : MonitorState :=
  evs.foldl (fun st e => (handleXEvent e.1 e.2 st).1) s

/-- Callbacks delivered to the `MouseCursorMonitor::Callback`. -/
inductive CallbackEvent where
  | onMouseCursor (c : MouseCursor)
  | onMouseCursorPosition (state : CursorPosState) (pos : Int × Int)
deriving DecidableEq, Repr

/-- The shapes carried by the `OnMouseCursor` callbacks of a delivery list. -/
def shapeCallbacks (cbs : List CallbackEvent) : List MouseCursor :=
  cbs.filterMap (fun cb =>
    match cb with
    | CallbackEvent.onMouseCursor c => some c
    | CallbackEvent.onMouseCursorPosition _ _ => none)

/-- The `(state, position)` pairs carried by the `OnMouseCursorPosition`
callbacks of a delivery list. -/
def positionCallbacks (cbs : List CallbackEvent) :
    List (CursorPosState × (Int × Int)) :=
  cbs.filterMap (fun cb =>
    match cb with
    | CallbackEvent.onMouseCursor _ => none
    | CallbackEvent.onMouseCursorPosition st p => some (st, p))

/-- The `CursorState` value `Capture` computes inline from the result of
`XQueryPointer`: `OUTSIDE` when the query failed or the error trap
recorded a non-zero error, otherwise `INSIDE` iff
`window_ == root_window || child_window != None`. -/
def queriedState (window : Nat) (q : PointerQuery) : CursorPosState :=
  if ¬ q.result ∨ q.errCode ≠ 0 then CursorPosState.OUTSIDE
  else if window = q.rootWindow ∨ q.childWindow ≠ xNone then
    CursorPosState.INSIDE
  else CursorPosState.OUTSIDE

/-- `MouseCursorMonitorX11::Capture`: `assert(callback_)`; process pending
X events; if `cursor_shape_` is set, release it to `OnMouseCursor`; in
`SHAPE_AND_POSITION` mode run `XQueryPointer` under an error trap and
deliver `OnMouseCursorPosition` with the queried state. -/
def capture (evs : List (XEventRec × CursorFetch)) (q : PointerQuery)
    (s : MonitorState) : Except XErr (MonitorState × List CallbackEvent) :=
  if ¬ s.callback then Except.error XErr.invalidStateError
  else
    let s1 := processPendingXEvents evs s
    let pair :=
      match s1.cursorShape with
      | some c => ({ s1 with cursorShape := none },
                   [CallbackEvent.onMouseCursor c])
      | none => (s1, ([] : List CallbackEvent))
    let s2 := pair.1
    let cbs := pair.2
    if s2.mode = Mode.SHAPE_AND_POSITION then
      Except.ok (s2,
        cbs ++ [CallbackEvent.onMouseCursorPosition (queriedState s2.window q)
          (q.winX, q.winY)])
    else Except.ok (s2, cbs)

/-- `MouseCursorMonitorX11::Init`: `assert(!callback_)`, `assert(callback)`;
store the callback and mode; run `XFixesQueryExtension` (`queryExt` is
`some (eventBase, errorBase)` on success, `none` when the extension is
unavailable); on success subscribe to cursor notifications and run
`CaptureCursor` once; on failure only log. -/
def initMonitor (callback : Bool) (mode : Mode)
    (queryExt : Option (Int × Int)) (f : CursorFetch) (s : MonitorState) :
    Except XErr MonitorState :=
  if s.callback then Except.error XErr.invalidStateError
  else if ¬ callback then Except.error XErr.invalidStateError
  else
    let s1 := { s with callback := true, mode := mode }
    match queryExt with
    | some basePair =>
        let s2 := { s1 with haveXfixes := true
                            xfixesEventBase := basePair.1
                            xfixesErrorBase := basePair.2 }
        Except.ok { s2 with cursorShape := captureCursor f s2.cursorShape }
    | none =>
        Except.ok { s1 with haveXfixes := false }

/-- One externally triggered step of an initialized monitor: either a
`Capture` call (with the pending events and pointer-query result it
observes) or a single X event pumped to the handler. -/
inductive MonitorOp where
  | captureOp (evs : List (XEventRec × CursorFetch)) (q : PointerQuery)
  | pumpEvent (ev : XEventRec) (f : CursorFetch)
deriving DecidableEq, Repr

/-- Run a sequence of steps, collecting every delivered callback.
A `Capture` call whose precondition fails delivers nothing and leaves
the state unchanged. -/
def runOps (ops : List MonitorOp) (s : MonitorState) :
    MonitorState × List CallbackEvent :=
  match ops with
  | [] => (s, [])
  | op :: rest =>
      let step :=
        match op with
        | MonitorOp.captureOp evs q =>
            match capture evs q s with
            | Except.ok out => out
            | Except.error _ => (s, [])
        | MonitorOp.pumpEvent ev f => ((handleXEvent ev f s).1, [])
      let cont := runOps rest step.1
      (cont.1, step.2 ++ cont.2)

/-- `GetTopLevelWindow` loop body, with explicit fuel (the C loop may not
terminate on a cyclic tree) and a running count of ascension steps
(`window = parent` assignments).  `query w` models `XQueryTree` on `w`,
returning `some (root, parent)` on success and `none` on failure, in
which case the function returns the X `None` sentinel immediately. -/
def getTopLevelWindowAux (query : Nat → Option (Nat × Nat)) :
    Nat → Nat → Nat → Option (Nat × Nat)
  | 0, _, _ => none
  | fuel + 1, window, steps =>
      match query window with
      | none => some (xNone, steps)
      | some rp =>
          if rp.2 = rp.1 then some (window, steps)
          else getTopLevelWindowAux query fuel rp.2 (steps + 1)

/-- `GetTopLevelWindow`: ascend the parent chain of `window` until a
direct child of the root is found; return it together with the number of
ascension steps performed. -/
def getTopLevelWindow (query : Nat → Option (Nat × Nat)) (fuel : Nat)
    (window : Nat) : Option (Nat × Nat) :=
  getTopLevelWindowAux query fuel window 0

/-- `MouseCursorMonitor::CreateForWindow`: NULL when no X display is
configured; resolve the window with `GetTopLevelWindow` and return NULL
when that yields `None`; otherwise construct the monitor on the resolved
window.  The outer `Option` is fuel exhaustion of the resolution loop;
the inner `Option` models the returned pointer (`none` = NULL). -/
def createForWindow (hasDisplay : Bool) (query : Nat → Option (Nat × Nat))
    (fuel : Nat) (window : Nat) : Option (Option MonitorState) :=
  if ¬ hasDisplay then some none
  else
    match getTopLevelWindow query fuel window with
    | none => none
    | some wr =>
        if wr.1 = xNone then some none
        else some (some (mkMonitor wr.1))

/-- `MouseCursorMonitor::CreateForScreen`: NULL when no X display is
configured; otherwise construct the monitor on the display's default
root window.  The `screen` argument is received but never read. -/
def createForScreen (hasDisplay : Bool) (defaultRoot : Nat) (screen : Int) :
    Option MonitorState :=
  if ¬ hasDisplay then none
  else some (mkMonitor defaultRoot)

/-- Position state as the spec words it: `OUTSIDE` if the pointer query
failed or the error guard recorded a non-zero error; otherwise `INSIDE`
if the target surface is the root / whole screen; otherwise `INSIDE`
iff the reported child window is non-null. -/
def specPositionState (q : PointerQuery) (targetIsRoot : Bool) :
    CursorPosState :=
  if ¬ q.result ∨ q.errCode ≠ 0 then CursorPosState.OUTSIDE
  else if targetIsRoot then CursorPosState.INSIDE
  else if q.childWindow ≠ xNone then CursorPosState.INSIDE
  else CursorPosState.OUTSIDE

/-- The toplevel window an ancestor chain ends in: the last element of
`w :: ws`. -/
def chainTarget : Nat → List Nat → Nat
  | w, [] => w
  | _, w2 :: rest => chainTarget w2 rest

/-- `w :: ws` is a ancestor chain on which `GetTopLevelWindow` succeeds:
every `XQueryTree` along it succeeds, each step but the last ascends to
the listed parent (which is not the root), and the last window's parent
is its root. -/
def chainOk (query : Nat → Option (Nat × Nat)) : List Nat → Bool
  | [] => false
  | [w] =>
      match query w with
      | some rp => decide (rp.2 = rp.1)
      | none => false
  | w :: w2 :: rest =>
      match query w with
      | some rp =>
          decide (rp.2 = w2) && decide (¬ rp.2 = rp.1) &&
            chainOk query (w2 :: rest)
      | none => false

/-- `w :: ws` is an ancestor chain whose every step but the last ascends
(query succeeds, parent is the listed non-root window) and whose last
window's `XQueryTree` fails. -/
def chainFail (query : Nat → Option (Nat × Nat)) : List Nat → Bool
  | [] => false
  | [w] => (query w).isNone
  | w :: w2 :: rest =>
      match query w with
      | some rp =>
          decide (rp.2 = w2) && decide (¬ rp.2 = rp.1) &&
            chainFail query (w2 :: rest)
      | none => false

/-! ### Basic lemmas about the embedded operations -/

theorem handleXEvent_callback (ev : XEventRec) (f : CursorFetch)
    (s : MonitorState) : (handleXEvent ev f s).1.callback = s.callback := by
  unfold handleXEvent
  split
  · split <;> rfl
  · rfl

theorem handleXEvent_mode (ev : XEventRec) (f : CursorFetch)
    (s : MonitorState) : (handleXEvent ev f s).1.mode = s.mode := by
  unfold handleXEvent
  split
  · split <;> rfl
  · rfl

theorem handleXEvent_window (ev : XEventRec) (f : CursorFetch)
    (s : MonitorState) : (handleXEvent ev f s).1.window = s.window := by
  unfold handleXEvent
  split
  · split <;> rfl
  · rfl

theorem handleXEvent_haveXfixes (ev : XEventRec) (f : CursorFetch)
    (s : MonitorState) :
    (handleXEvent ev f s).1.haveXfixes = s.haveXfixes := by
  unfold handleXEvent
  split
  · split <;> rfl
  · rfl

theorem handleXEvent_no_xfixes (ev : XEventRec) (f : CursorFetch)
    (s : MonitorState) (h : s.haveXfixes = false) :
    (handleXEvent ev f s).1 = s := by
  unfold handleXEvent
  rw [h]
  simp

theorem processPendingXEvents_cons (e : XEventRec × CursorFetch)
    (evs : List (XEventRec × CursorFetch)) (s : MonitorState) :
    processPendingXEvents (e :: evs) s
      = processPendingXEvents evs (handleXEvent e.1 e.2 s).1 := rfl

theorem processPendingXEvents_callback (evs : List (XEventRec × CursorFetch))
    (s : MonitorState) :
    (processPendingXEvents evs s).callback = s.callback := by
  induction evs generalizing s with
  | nil => rfl
  | cons e rest ih =>
      rw [processPendingXEvents_cons, ih, handleXEvent_callback]

theorem processPendingXEvents_mode (evs : List (XEventRec × CursorFetch))
    (s : MonitorState) :
    (processPendingXEvents evs s).mode = s.mode := by
  induction evs generalizing s with
  | nil => rfl
  | cons e rest ih =>
      rw [processPendingXEvents_cons, ih, handleXEvent_mode]

theorem processPendingXEvents_window (evs : List (XEventRec × CursorFetch))
    (s : MonitorState) :
    (processPendingXEvents evs s).window = s.window := by
  induction evs generalizing s with
  | nil => rfl
  | cons e rest ih =>
      rw [processPendingXEvents_cons, ih, handleXEvent_window]

theorem processPendingXEvents_no_xfixes (evs : List (XEventRec × CursorFetch))
    (s : MonitorState) (h : s.haveXfixes = false) :
    processPendingXEvents evs s = s := by
  induction evs generalizing s with
  | nil => rfl
  | cons e rest ih =>
      rw [processPendingXEvents_cons, handleXEvent_no_xfixes e.1 e.2 s h, ih s h]

/-! ### Claim C1 (hotspot clamping) -/

/-- Claim C1, as stated, is false on the code: `CaptureCursor` computes
the hotspot as `std::min(width, xhot)` / `std::min(height, yhot)`, so a
native 10×10 image with reported hotspot (15, 3) yields the delivered
hotspot (10, 3), not the (9, 3) the claim requires — the x coordinate is
not in `[0, width)`. -/
theorem hotspot_clamp_counterexample :
    captureCursor
        { img := some { width := 10, height := 10, xhot := 15, yhot := 3,
                        pixels := List.replicate 100 0 }, errCode := 0 }
        none
      = some (shapeOfImage
          { width := 10, height := 10, xhot := 15, yhot := 3,
            pixels := List.replicate 100 0 })
    ∧ (shapeOfImage
         { width := 10, height := 10, xhot := 15, yhot := 3,
           pixels := List.replicate 100 0 }).hotspot = (10, 3)
    ∧ ((10 : Nat), (3 : Nat)) ≠ ((9 : Nat), (3 : Nat)) := by
  refine ⟨rfl, rfl, by decide⟩

/-- Claim C1 amended: for every successfully fetched native cursor image,
the delivered hotspot is the server-reported hotspot clamped with
`min width xhot` / `min height yhot` — i.e. to the inclusive ranges
`[0, width]` / `[0, height]` (an in-range hotspot is kept as is); in
particular for width = 10, height = 10 and hotspot (15, 3) the delivered
hotspot is (10, 3). -/
theorem hotspot_min_clamp (f : CursorFetch) (img : XFixesCursorImage)
    (pending : Option MouseCursor)
    (h1 : f.img = some img) (h2 : f.errCode = 0) :
    ∃ c, captureCursor f pending = some c ∧
      c.hotspot = (min img.width img.xhot, min img.height img.yhot) ∧
      c.hotspot.1 ≤ img.width ∧ c.hotspot.2 ≤ img.height ∧
      (img.xhot ≤ img.width → c.hotspot.1 = img.xhot) ∧
      (img.yhot ≤ img.height → c.hotspot.2 = img.yhot) := by
  refine ⟨shapeOfImage img, ?_, rfl, ?_, ?_, ?_, ?_⟩
  · unfold captureCursor
    rw [h1, h2]
    simp
  · exact min_le_left _ _
  · exact min_le_left _ _
  · intro h
    exact min_eq_right h
  · intro h
    exact min_eq_right h

/-- Witness for `hotspot_min_clamp` at the concrete 10×10 image with
reported hotspot (15, 3): the delivered hotspot is (10, 3). -/
theorem hotspot_min_clamp_witness :
    (∃ c, captureCursor
        { img := some { width := 10, height := 10, xhot := 15, yhot := 3,
                        pixels := List.replicate 100 0 }, errCode := 0 }
        none = some c ∧
      c.hotspot = (min 10 15, min 10 3) ∧
      c.hotspot.1 ≤ 10 ∧ c.hotspot.2 ≤ 10 ∧
      (15 ≤ 10 → c.hotspot.1 = 15) ∧
      (3 ≤ 10 → c.hotspot.2 = 3)) :=
  hotspot_min_clamp
    { img := some { width := 10, height := 10, xhot := 15, yhot := 3,
                    pixels := List.replicate 100 0 }, errCode := 0 }
    { width := 10, height := 10, xhot := 15, yhot := 3,
      pixels := List.replicate 100 0 }
    none rfl rfl

/-! ### Claim C4 (pixel conversion) -/

/-- Claim C4: for every successfully fetched native cursor image of size
`width × height` (with a native buffer at least that long, as the C code
assumes), the delivered bitmap has exactly `width * height` entries, and
the i-th entry is the i-th native element reduced to 32 bits, in the
same row-major order. -/
theorem bitmap_packs_native_pixels (f : CursorFetch)
    (img : XFixesCursorImage) (pending : Option MouseCursor)
    (h1 : f.img = some img) (h2 : f.errCode = 0)
    (h3 : img.width * img.height ≤ img.pixels.length) :
    ∃ c, captureCursor f pending = some c ∧
      c.bitmap.length = img.width * img.height ∧
      ∀ i, i < img.width * img.height →
        c.bitmap[i]? = (img.pixels[i]?).map (fun p => p % 2 ^ 32) := by
  refine ⟨shapeOfImage img, ?_, ?_, ?_⟩
  · unfold captureCursor
    rw [h1, h2]
    simp
  · unfold shapeOfImage
    simp [List.length_take, Nat.min_eq_left h3]
  · intro i hi
    unfold shapeOfImage
    simp only [List.getElem?_map, List.getElem?_take_of_lt hi]

/-- Witness for `bitmap_packs_native_pixels` at the concrete 2×2 image
with native values `[0xAABBCCDD, 0x11223344, 0x55667788, 0x99AABBCC]`:
the delivered bitmap holds exactly those four 32-bit values in order. -/
theorem bitmap_packs_native_pixels_witness :
    (∃ c, captureCursor
        { img := some { width := 2, height := 2, xhot := 0, yhot := 0,
                        pixels := [0xAABBCCDD, 0x11223344,
                                   0x55667788, 0x99AABBCC] },
          errCode := 0 } none = some c ∧
      c.bitmap.length = 2 * 2 ∧
      ∀ i, i < 2 * 2 →
        c.bitmap[i]? =
          (([0xAABBCCDD, 0x11223344, 0x55667788, 0x99AABBCC] :
              List Nat)[i]?).map (fun p => p % 2 ^ 32)) ∧
    (shapeOfImage { width := 2, height := 2, xhot := 0, yhot := 0,
                    pixels := [0xAABBCCDD, 0x11223344,
                               0x55667788, 0x99AABBCC] }).bitmap
      = [0xAABBCCDD, 0x11223344, 0x55667788, 0x99AABBCC] :=
  ⟨bitmap_packs_native_pixels
      { img := some { width := 2, height := 2, xhot := 0, yhot := 0,
                      pixels := [0xAABBCCDD, 0x11223344,
                                 0x55667788, 0x99AABBCC] }, errCode := 0 }
      { width := 2, height := 2, xhot := 0, yhot := 0,
        pixels := [0xAABBCCDD, 0x11223344, 0x55667788, 0x99AABBCC] }
      none rfl rfl (by decide),
   by decide⟩

/-! ### Claim C7 (failed fetch keeps the pending shape) -/

/-- Claim C7: if the cursor-image fetch returned NULL or the error guard
recorded a non-zero error, `CaptureCursor` leaves the pending shape slot
exactly as it was — a pending shape is retained and an empty slot stays
empty. -/
theorem captureCursor_failure_keeps_pending (f : CursorFetch)
    (pending : Option MouseCursor)
    (h : f.img = none ∨ f.errCode ≠ 0) :
    captureCursor f pending = pending := by
  unfold captureCursor
  rcases h with h | h
  · rw [h]
  · cases hi : f.img with
    | none => rfl
    | some img => simp [h]

/-- Witness for `captureCursor_failure_keeps_pending`: a NULL fetch with
a pending shape keeps it, and a non-zero error code on an empty slot
keeps the slot empty. -/
theorem captureCursor_failure_keeps_pending_witness :
    captureCursor { img := none, errCode := 0 }
        (some (shapeOfImage
          { width := 1, height := 1, xhot := 0, yhot := 0, pixels := [5] }))
      = some (shapeOfImage
          { width := 1, height := 1, xhot := 0, yhot := 0, pixels := [5] })
    ∧ captureCursor
        { img := some { width := 1, height := 1, xhot := 0, yhot := 0,
                        pixels := [5] }, errCode := 3 } none = none :=
  ⟨captureCursor_failure_keeps_pending _ _ (Or.inl rfl),
   captureCursor_failure_keeps_pending _ _ (Or.inr (by decide))⟩

theorem positionCallbacks_append (a b : List CallbackEvent) :
    positionCallbacks (a ++ b) = positionCallbacks a ++ positionCallbacks b :=
  List.filterMap_append a b _

theorem shapeCallbacks_append (a b : List CallbackEvent) :
    shapeCallbacks (a ++ b) = shapeCallbacks a ++ shapeCallbacks b :=
  List.filterMap_append a b _

/-- The classification computed inline by `Capture` coincides with the
spec's wording of it. -/
theorem queriedState_eq_spec (q : PointerQuery) (w : Nat) :
    queriedState w q = specPositionState q (decide (w = q.rootWindow)) := by
  unfold queriedState specPositionState
  by_cases he : (¬ q.result ∨ q.errCode ≠ 0)
  · rw [if_pos he, if_pos he]
  · rw [if_neg he, if_neg he]
    by_cases hr : w = q.rootWindow
    · rw [if_pos (Or.inl hr),
        if_pos (show decide (w = q.rootWindow) = true by simp [hr])]
    · rw [if_neg (show ¬ decide (w = q.rootWindow) = true by simp [hr])]
      by_cases hc : q.childWindow ≠ xNone
      · rw [if_pos (Or.inr hc), if_pos hc]
      · rw [if_neg (show ¬ (w = q.rootWindow ∨ q.childWindow ≠ xNone) from
          fun h => h.elim hr hc), if_neg hc]

theorem positionCallbacks_single (st : CursorPosState) (p : Int × Int) :
    positionCallbacks [CallbackEvent.onMouseCursorPosition st p]
      = [(st, p)] := rfl

theorem positionCallbacks_shape_single (c : MouseCursor)
    (st : CursorPosState) (p : Int × Int) :
    positionCallbacks [CallbackEvent.onMouseCursor c,
        CallbackEvent.onMouseCursorPosition st p]
      = [(st, p)] := rfl

/-- `Capture` with a satisfied precondition and no pending shape: the
state after event processing is returned unchanged, and only the
position callback (in `SHAPE_AND_POSITION` mode) is delivered. -/
theorem capture_ok_none (evs : List (XEventRec × CursorFetch))
    (q : PointerQuery) (s : MonitorState) (h1 : s.callback = true)
    (hcs : (processPendingXEvents evs s).cursorShape = none) :
    capture evs q s =
      if (processPendingXEvents evs s).mode = Mode.SHAPE_AND_POSITION then
        Except.ok (processPendingXEvents evs s,
          [CallbackEvent.onMouseCursorPosition
            (queriedState (processPendingXEvents evs s).window q)
            (q.winX, q.winY)])
      else Except.ok (processPendingXEvents evs s, []) := by
  unfold capture
  rw [if_neg (by simp [h1])]
  dsimp only
  rw [hcs]
  rfl

/-- `Capture` with a satisfied precondition and a pending shape `c`: the
shape slot is released to `OnMouseCursor` ahead of the position
callback. -/
theorem capture_ok_some (evs : List (XEventRec × CursorFetch))
    (q : PointerQuery) (s : MonitorState) (c : MouseCursor)
    (h1 : s.callback = true)
    (hcs : (processPendingXEvents evs s).cursorShape = some c) :
    capture evs q s =
      if (processPendingXEvents evs s).mode = Mode.SHAPE_AND_POSITION then
        Except.ok ({ processPendingXEvents evs s with cursorShape := none },
          [CallbackEvent.onMouseCursor c,
           CallbackEvent.onMouseCursorPosition
             (queriedState (processPendingXEvents evs s).window q)
             (q.winX, q.winY)])
      else
        Except.ok ({ processPendingXEvents evs s with cursorShape := none },
          [CallbackEvent.onMouseCursor c]) := by
  unfold capture
  rw [if_neg (by simp [h1])]
  dsimp only
  rw [hcs]
  rfl

/-! ### Claim C2 (position classification) -/

/-- Claim C2: every `Capture` in `SHAPE_AND_POSITION` mode delivers
exactly one position callback, whose state is: `OUTSIDE` if the pointer
query failed or the error guard recorded a non-zero error; otherwise
`INSIDE` if the target window is the reported root (whole screen);
otherwise `INSIDE` iff the reported child window is non-null. -/
theorem capture_position_classification (s : MonitorState)
    (evs : List (XEventRec × CursorFetch)) (q : PointerQuery)
    (h1 : s.callback = true) (h2 : s.mode = Mode.SHAPE_AND_POSITION) :
    ∃ s2 cbs, capture evs q s = Except.ok (s2, cbs) ∧
      positionCallbacks cbs =
        [(specPositionState q (decide (s.window = q.rootWindow)),
          (q.winX, q.winY))] := by
  have hmode : (processPendingXEvents evs s).mode = Mode.SHAPE_AND_POSITION :=
    (processPendingXEvents_mode evs s).trans h2
  have hwin : (processPendingXEvents evs s).window = s.window :=
    processPendingXEvents_window evs s
  cases hcs : (processPendingXEvents evs s).cursorShape with
  | none =>
      rw [capture_ok_none evs q s h1 hcs, if_pos hmode]
      exact ⟨_, _, rfl, by
        rw [positionCallbacks_single, hwin, queriedState_eq_spec]⟩
  | some c =>
      rw [capture_ok_some evs q s c h1 hcs, if_pos hmode]
      exact ⟨_, _, rfl, by
        rw [positionCallbacks_shape_single, hwin, queriedState_eq_spec]⟩

/-- Witness for `capture_position_classification`: a concrete capture on
a window target with a successful pointer query reporting a non-null
child delivers one `INSIDE` position callback. -/
theorem capture_position_classification_witness :
    (∃ s2 cbs,
      capture []
          { result := true, rootWindow := 1, childWindow := 42,
            rootX := 5, rootY := 6, winX := 7, winY := 8, errCode := 0 }
          { callback := true, mode := Mode.SHAPE_AND_POSITION, window := 9,
            haveXfixes := true, xfixesEventBase := 100,
            xfixesErrorBase := 140, cursorShape := none }
        = Except.ok (s2, cbs) ∧
      positionCallbacks cbs =
        [(specPositionState
            { result := true, rootWindow := 1, childWindow := 42,
              rootX := 5, rootY := 6, winX := 7, winY := 8, errCode := 0 }
            (decide ((9 : Nat) = 1)), ((7 : Int), (8 : Int)))]) :=
  capture_position_classification
    { callback := true, mode := Mode.SHAPE_AND_POSITION, window := 9,
      haveXfixes := true, xfixesEventBase := 100, xfixesErrorBase := 140,
      cursorShape := none }
    []
    { result := true, rootWindow := 1, childWindow := 42,
      rootX := 5, rootY := 6, winX := 7, winY := 8, errCode := 0 }
    rfl rfl

/-- A genuine display-cursor notification with a successful fetch sets
the pending slot to the newly captured shape, overwriting whatever was
there. -/
theorem handleXEvent_notify (ev : XEventRec) (f : CursorFetch)
    (s : MonitorState) (img : XFixesCursorImage)
    (hx : s.haveXfixes = true)
    (ht : ev.type = s.xfixesEventBase + xFixesCursorNotify)
    (hs : ev.subtype = xFixesDisplayCursorNotify)
    (hf : f.img = some img) (he : f.errCode = 0) :
    (handleXEvent ev f s).1
      = { s with cursorShape := some (shapeOfImage img) } := by
  unfold handleXEvent
  rw [if_pos ⟨hx, ht⟩, if_pos hs]
  have hcc : captureCursor f s.cursorShape = some (shapeOfImage img) := by
    unfold captureCursor
    rw [hf, he]
    simp
  simp only [hcc]

/-! ### Claim C3 (only the latest undelivered shape is delivered) -/

/-- Claim C3: if two shape-change notifications are processed (each with
a successful cursor capture) before any `Capture` call, the next
`Capture` delivers exactly one `OnMouseCursor` callback and it carries
the shape captured by the second notification; the slot is then empty,
so the first shape is never delivered. -/
theorem latest_shape_wins (s : MonitorState) (ev1 ev2 : XEventRec)
    (f1 f2 : CursorFetch) (img1 img2 : XFixesCursorImage) (q : PointerQuery)
    (hcb : s.callback = true) (hx : s.haveXfixes = true)
    (ht1 : ev1.type = s.xfixesEventBase + xFixesCursorNotify)
    (hs1 : ev1.subtype = xFixesDisplayCursorNotify)
    (ht2 : ev2.type = s.xfixesEventBase + xFixesCursorNotify)
    (hs2 : ev2.subtype = xFixesDisplayCursorNotify)
    (hf1 : f1.img = some img1) (he1 : f1.errCode = 0)
    (hf2 : f2.img = some img2) (he2 : f2.errCode = 0) :
    ∃ s3 cbs,
      capture [] q ((handleXEvent ev2 f2 ((handleXEvent ev1 f1 s).1)).1)
        = Except.ok (s3, cbs) ∧
      shapeCallbacks cbs = [shapeOfImage img2] ∧
      s3.cursorShape = none := by
  rw [handleXEvent_notify ev1 f1 s img1 hx ht1 hs1 hf1 he1]
  rw [handleXEvent_notify ev2 f2
      { s with cursorShape := some (shapeOfImage img1) } img2 hx ht2 hs2
      hf2 he2]
  rw [capture_ok_some [] q
      { s with cursorShape := some (shapeOfImage img2) }
      (shapeOfImage img2) hcb rfl]
  by_cases hm : (processPendingXEvents []
      { s with cursorShape := some (shapeOfImage img2) }).mode
      = Mode.SHAPE_AND_POSITION
  · rw [if_pos hm]
    exact ⟨_, _, rfl, rfl, rfl⟩
  · rw [if_neg hm]
    exact ⟨_, _, rfl, rfl, rfl⟩

/-- Witness for `latest_shape_wins`: two concrete notifications with two
different 1×1 images; the capture delivers only the second image's
shape. -/
theorem latest_shape_wins_witness :
    (∃ s3 cbs,
      capture []
          { result := true, rootWindow := 1, childWindow := 0,
            rootX := 0, rootY := 0, winX := 0, winY := 0, errCode := 0 }
          ((handleXEvent { type := 101, subtype := 0 }
              { img := some { width := 1, height := 1, xhot := 0, yhot := 0,
                              pixels := [2] }, errCode := 0 }
              ((handleXEvent { type := 101, subtype := 0 }
                  { img := some { width := 1, height := 1, xhot := 0,
                                  yhot := 0, pixels := [1] }, errCode := 0 }
                  { callback := true, mode := Mode.SHAPE_AND_POSITION,
                    window := 1, haveXfixes := true, xfixesEventBase := 100,
                    xfixesErrorBase := 140, cursorShape := none }).1)).1)
        = Except.ok (s3, cbs) ∧
      shapeCallbacks cbs
        = [shapeOfImage { width := 1, height := 1, xhot := 0, yhot := 0,
                          pixels := [2] }] ∧
      s3.cursorShape = none) :=
  latest_shape_wins
    { callback := true, mode := Mode.SHAPE_AND_POSITION, window := 1,
      haveXfixes := true, xfixesEventBase := 100, xfixesErrorBase := 140,
      cursorShape := none }
    { type := 101, subtype := 0 } { type := 101, subtype := 0 }
    { img := some { width := 1, height := 1, xhot := 0, yhot := 0,
                    pixels := [1] }, errCode := 0 }
    { img := some { width := 1, height := 1, xhot := 0, yhot := 0,
                    pixels := [2] }, errCode := 0 }
    { width := 1, height := 1, xhot := 0, yhot := 0, pixels := [1] }
    { width := 1, height := 1, xhot := 0, yhot := 0, pixels := [2] }
    { result := true, rootWindow := 1, childWindow := 0,
      rootX := 0, rootY := 0, winX := 0, winY := 0, errCode := 0 }
    rfl rfl rfl rfl rfl rfl rfl rfl rfl rfl

theorem capture_not_callback (evs : List (XEventRec × CursorFetch))
    (q : PointerQuery) (s : MonitorState) (h : s.callback = false) :
    capture evs q s = Except.error XErr.invalidStateError := by
  unfold capture
  rw [if_pos (by simp [h])]

theorem runOps_cons_pump (ev : XEventRec) (f : CursorFetch)
    (rest : List MonitorOp) (s : MonitorState) :
    runOps (MonitorOp.pumpEvent ev f :: rest) s
      = runOps rest (handleXEvent ev f s).1 := rfl

theorem runOps_cons_capture_ok (evs : List (XEventRec × CursorFetch))
    (q : PointerQuery) (rest : List MonitorOp) (s s1 : MonitorState)
    (cbs : List CallbackEvent) (h : capture evs q s = Except.ok (s1, cbs)) :
    runOps (MonitorOp.captureOp evs q :: rest) s
      = ((runOps rest s1).1, cbs ++ (runOps rest s1).2) := by
  conv_lhs => rw [runOps]
  rw [h]

theorem runOps_cons_capture_error (evs : List (XEventRec × CursorFetch))
    (q : PointerQuery) (rest : List MonitorOp) (s : MonitorState)
    (e : XErr) (h : capture evs q s = Except.error e) :
    runOps (MonitorOp.captureOp evs q :: rest) s
      = ((runOps rest s).1, (runOps rest s).2) := by
  conv_lhs => rw [runOps]
  rw [h]
  rfl

/-- Invariant behind claim C5: with `have_xfixes_` false and an empty
pending slot, no sequence of steps ever delivers a shape callback. -/
theorem runOps_no_xfixes_no_shape (ops : List MonitorOp) (s : MonitorState)
    (hx : s.haveXfixes = false) (hc : s.cursorShape = none) :
    shapeCallbacks (runOps ops s).2 = [] := by
  induction ops generalizing s with
  | nil => rfl
  | cons op rest ih =>
      cases op with
      | pumpEvent ev f =>
          rw [runOps_cons_pump, handleXEvent_no_xfixes ev f s hx]
          exact ih s hx hc
      | captureOp evs q =>
          cases hcb : s.callback with
          | false =>
              rw [runOps_cons_capture_error evs q rest s
                XErr.invalidStateError (capture_not_callback evs q s hcb)]
              exact ih s hx hc
          | true =>
              have hps : processPendingXEvents evs s = s :=
                processPendingXEvents_no_xfixes evs s hx
              have hcap : ∃ cbs, capture evs q s = Except.ok (s, cbs) ∧
                  shapeCallbacks cbs = [] := by
                rw [capture_ok_none evs q s hcb (by rw [hps]; exact hc), hps]
                by_cases hm : s.mode = Mode.SHAPE_AND_POSITION
                · rw [if_pos hm]
                  exact ⟨_, rfl, rfl⟩
                · rw [if_neg hm]
                  exact ⟨_, rfl, rfl⟩
              obtain ⟨cbs, hcap, hsc⟩ := hcap
              rw [runOps_cons_capture_ok evs q rest s s cbs hcap,
                shapeCallbacks_append, hsc, List.nil_append]
              exact ih s hx hc

/-! ### Claim C5 (extension unavailable: no shape callback, ever) -/

/-- Claim C5: if `XFixesQueryExtension` reports the extension unavailable
at `Init`, then no `OnMouseCursor` callback is ever delivered, no matter
how many `Capture` calls occur or which events are pumped. -/
theorem no_xfixes_no_shape_callbacks (w : Nat) (cb : Bool) (mode : Mode)
    (f : CursorFetch) (s : MonitorState) (ops : List MonitorOp)
    (h : initMonitor cb mode none f (mkMonitor w) = Except.ok s) :
    shapeCallbacks (runOps ops s).2 = [] := by
  cases cb with
  | false =>
      rw [show initMonitor false mode none f (mkMonitor w)
          = Except.error XErr.invalidStateError from rfl] at h
      exact Except.noConfusion h
  | true =>
      rw [show initMonitor true mode none f (mkMonitor w)
          = Except.ok { callback := true, mode := mode, window := w,
                        haveXfixes := false, xfixesEventBase := -1,
                        xfixesErrorBase := -1,
                        cursorShape := none } from rfl] at h
      injection h with h
      subst h
      exact runOps_no_xfixes_no_shape ops _ rfl rfl

/-- Witness for `no_xfixes_no_shape_callbacks`: a concrete monitor whose
`Init` found no XFixes extension delivers no shape callback across a
pumped cursor-notify-shaped event and a `Capture` call. -/
theorem no_xfixes_no_shape_callbacks_witness :
    initMonitor true Mode.SHAPE_AND_POSITION none
        { img := none, errCode := 0 } (mkMonitor 7)
      = Except.ok { callback := true, mode := Mode.SHAPE_AND_POSITION,
                    window := 7, haveXfixes := false, xfixesEventBase := -1,
                    xfixesErrorBase := -1, cursorShape := none } ∧
    shapeCallbacks (runOps
        [MonitorOp.pumpEvent { type := 0, subtype := 0 }
           { img := some { width := 1, height := 1, xhot := 0, yhot := 0,
                           pixels := [1] }, errCode := 0 },
         MonitorOp.captureOp []
           { result := true, rootWindow := 7, childWindow := 0, rootX := 0,
             rootY := 0, winX := 0, winY := 0, errCode := 0 }]
        { callback := true, mode := Mode.SHAPE_AND_POSITION, window := 7,
          haveXfixes := false, xfixesEventBase := -1, xfixesErrorBase := -1,
          cursorShape := none }).2 = [] :=
  ⟨rfl, no_xfixes_no_shape_callbacks 7 true Mode.SHAPE_AND_POSITION
    { img := none, errCode := 0 }
    { callback := true, mode := Mode.SHAPE_AND_POSITION, window := 7,
      haveXfixes := false, xfixesEventBase := -1, xfixesErrorBase := -1,
      cursorShape := none }
    [MonitorOp.pumpEvent { type := 0, subtype := 0 }
       { img := some { width := 1, height := 1, xhot := 0, yhot := 0,
                       pixels := [1] }, errCode := 0 },
     MonitorOp.captureOp []
       { result := true, rootWindow := 7, childWindow := 0, rootX := 0,
         rootY := 0, winX := 0, winY := 0, errCode := 0 }]
    rfl⟩

/-! ### Claim C6 (toplevel window resolution) -/

theorem chainTarget_cons (w w2 : Nat) (rest : List Nat) :
    chainTarget w (w2 :: rest) = chainTarget w2 rest := rfl

theorem getTopLevelWindowAux_none (query : Nat → Option (Nat × Nat))
    (fuel w steps : Nat) (h : query w = none) :
    getTopLevelWindowAux query (fuel + 1) w steps = some (xNone, steps) := by
  conv_lhs => unfold getTopLevelWindowAux
  rw [h]

theorem getTopLevelWindowAux_root (query : Nat → Option (Nat × Nat))
    (fuel w steps : Nat) (rp : Nat × Nat) (h : query w = some rp)
    (hr : rp.2 = rp.1) :
    getTopLevelWindowAux query (fuel + 1) w steps = some (w, steps) := by
  conv_lhs => unfold getTopLevelWindowAux
  rw [h]
  dsimp only
  rw [if_pos hr]

theorem getTopLevelWindowAux_step (query : Nat → Option (Nat × Nat))
    (fuel w steps : Nat) (rp : Nat × Nat) (h : query w = some rp)
    (hr : ¬ rp.2 = rp.1) :
    getTopLevelWindowAux query (fuel + 1) w steps
      = getTopLevelWindowAux query fuel rp.2 (steps + 1) := by
  conv_lhs => unfold getTopLevelWindowAux
  rw [h]
  dsimp only
  rw [if_neg hr]

theorem getTopLevelWindowAux_chainOk (query : Nat → Option (Nat × Nat))
    (ws : List Nat) : ∀ w fuel steps, chainOk query (w :: ws) = true →
    ws.length < fuel →
    getTopLevelWindowAux query fuel w steps
      = some (chainTarget w ws, steps + ws.length) := by
  induction ws with
  | nil =>
      intro w fuel steps h hf
      cases fuel with
      | zero => omega
      | succ n =>
          unfold chainOk at h
          cases hq : query w with
          | none =>
              rw [hq] at h
              exact absurd h (by simp)
          | some rp =>
              rw [hq] at h
              rw [getTopLevelWindowAux_root query n w steps rp hq
                (of_decide_eq_true h)]
              rfl
  | cons w2 rest ih =>
      intro w fuel steps h hf
      cases fuel with
      | zero => omega
      | succ n =>
          unfold chainOk at h
          cases hq : query w with
          | none =>
              rw [hq] at h
              exact absurd h (by simp)
          | some rp =>
              rw [hq] at h
              simp only [Bool.and_eq_true, decide_eq_true_eq] at h
              obtain ⟨⟨hp, hnr⟩, hrest⟩ := h
              rw [getTopLevelWindowAux_step query n w steps rp hq hnr, hp,
                ih w2 n (steps + 1) hrest (by simpa using hf),
                chainTarget_cons]
              simp only [List.length_cons]
              rw [Nat.add_assoc, Nat.add_comm 1]

theorem getTopLevelWindowAux_chainFail (query : Nat → Option (Nat × Nat))
    (ws : List Nat) : ∀ w fuel steps, chainFail query (w :: ws) = true →
    ws.length < fuel →
    getTopLevelWindowAux query fuel w steps
      = some (xNone, steps + ws.length) := by
  induction ws with
  | nil =>
      intro w fuel steps h hf
      cases fuel with
      | zero => omega
      | succ n =>
          unfold chainFail at h
          cases hq : query w with
          | none =>
              rw [getTopLevelWindowAux_none query n w steps hq]
              rfl
          | some rp =>
              rw [hq] at h
              exact absurd h (by simp)
  | cons w2 rest ih =>
      intro w fuel steps h hf
      cases fuel with
      | zero => omega
      | succ n =>
          unfold chainFail at h
          cases hq : query w with
          | none =>
              rw [hq] at h
              exact absurd h (by simp)
          | some rp =>
              rw [hq] at h
              simp only [Bool.and_eq_true, decide_eq_true_eq] at h
              obtain ⟨⟨hp, hnr⟩, hrest⟩ := h
              rw [getTopLevelWindowAux_step query n w steps rp hq hnr, hp,
                ih w2 n (steps + 1) hrest (by simpa using hf)]
              simp only [List.length_cons]
              rw [Nat.add_assoc, Nat.add_comm 1]

/-- Claim C6: on an ancestor chain `w :: ws` of depth `ws.length`,
`GetTopLevelWindow` performs exactly `ws.length` ascensions and returns
the chain's toplevel window (a window already parented to the root
returns itself after zero ascensions, the `ws = []` case); and when an
`XQueryTree` along the chain fails it returns the `None` sentinel
immediately, without retrying, after the `ws2.length` ascensions that
preceded the failing query. -/
theorem getTopLevelWindow_resolution (query query2 : Nat → Option (Nat × Nat))
    (w w2 : Nat) (ws ws2 : List Nat) (fuel fuel2 : Nat)
    (h1 : chainOk query (w :: ws) = true) (hf1 : ws.length < fuel)
    (h2 : chainFail query2 (w2 :: ws2) = true) (hf2 : ws2.length < fuel2) :
    getTopLevelWindow query fuel w = some (chainTarget w ws, ws.length)
  ∧ getTopLevelWindow query2 fuel2 w2 = some (xNone, ws2.length) := by
  constructor
  · unfold getTopLevelWindow
    have h := getTopLevelWindowAux_chainOk query ws w fuel 0 h1 hf1
    simpa using h
  · unfold getTopLevelWindow
    have h := getTopLevelWindowAux_chainFail query2 ws2 w2 fuel2 0 h2 hf2
    simpa using h

/-- A small concrete window tree for the resolution witness: window 5 is
parented to 3 which is a direct child of root 1; window 7 is a direct
child of root 2; a query on window 9 fails. -/
def sampleTree (n : Nat) : Option (Nat × Nat) :=
  if n = 5 then some (1, 3)
  else if n = 3 then some (1, 1)
  else if n = 7 then some (2, 2)
  else none

/-- Witness for `getTopLevelWindow_resolution`: the depth-1 chain
`[5, 3]` resolves to 3 in one ascension, the depth-0 chain `[7]`
resolves to 7 itself in zero ascensions, and the failing window 9
returns the sentinel at once. -/
theorem getTopLevelWindow_resolution_witness :
    (chainOk sampleTree [5, 3] = true ∧ 1 < 2
      ∧ chainFail sampleTree [9] = true ∧ 0 < 1
      ∧ chainOk sampleTree [7] = true)
  ∧ (getTopLevelWindow sampleTree 2 5 = some (chainTarget 5 [3], 1)
      ∧ getTopLevelWindow sampleTree 1 9 = some (xNone, 0))
  ∧ getTopLevelWindow sampleTree 1 7 = some (chainTarget 7 [], 0) :=
  ⟨⟨by decide, by decide, by decide, by decide, by decide⟩,
   getTopLevelWindow_resolution sampleTree sampleTree 5 9 [3] [] 2 1
     (by decide) (by decide) (by decide) (by decide),
   (getTopLevelWindow_resolution sampleTree sampleTree 7 9 [] [] 1 1
     (by decide) (by decide) (by decide) (by decide)).1⟩

/-! ### Claim C8 (Init/Capture preconditions) -/

/-- Claim C8: `Init` on an already-initialized instance, `Init` with a
null callback, and `Capture` before `Init` are each rejected with
`InvalidStateError`; the rejected call yields no new state, so the
existing subscription state is unaltered. -/
theorem init_capture_preconditions (cb cb2 : Bool) (mode mode2 : Mode)
    (qe qe2 : Option (Int × Int)) (f f2 : CursorFetch)
    (s1 s2 : MonitorState) (evs : List (XEventRec × CursorFetch))
    (q : PointerQuery)
    (h1 : s1.callback = true) (h2 : cb2 = false) (h3 : s2.callback = false) :
    initMonitor cb mode qe f s1 = Except.error XErr.invalidStateError
  ∧ initMonitor cb2 mode2 qe2 f2 s2 = Except.error XErr.invalidStateError
  ∧ capture evs q s2 = Except.error XErr.invalidStateError := by
  refine ⟨?_, ?_, capture_not_callback evs q s2 h3⟩
  · unfold initMonitor
    rw [if_pos h1]
  · unfold initMonitor
    rw [if_neg (by simp [h3]), if_pos (by simp [h2])]

/-- Witness for `init_capture_preconditions`: a concrete initialized
monitor rejects a second `Init`, and a fresh monitor rejects a null
callback `Init` and a premature `Capture`. -/
theorem init_capture_preconditions_witness :
    initMonitor true Mode.SHAPE_ONLY (some (100, 140))
        { img := none, errCode := 0 }
        { callback := true, mode := Mode.SHAPE_AND_POSITION, window := 3,
          haveXfixes := true, xfixesEventBase := 100, xfixesErrorBase := 140,
          cursorShape := none }
      = Except.error XErr.invalidStateError
  ∧ initMonitor false Mode.SHAPE_ONLY none { img := none, errCode := 0 }
        (mkMonitor 3)
      = Except.error XErr.invalidStateError
  ∧ capture []
        { result := true, rootWindow := 1, childWindow := 0, rootX := 0,
          rootY := 0, winX := 0, winY := 0, errCode := 0 } (mkMonitor 3)
      = Except.error XErr.invalidStateError :=
  init_capture_preconditions true false Mode.SHAPE_ONLY Mode.SHAPE_ONLY
    (some (100, 140)) none { img := none, errCode := 0 }
    { img := none, errCode := 0 }
    { callback := true, mode := Mode.SHAPE_AND_POSITION, window := 3,
      haveXfixes := true, xfixesEventBase := 100, xfixesErrorBase := 140,
      cursorShape := none }
    (mkMonitor 3) []
    { result := true, rootWindow := 1, childWindow := 0, rootX := 0,
      rootY := 0, winX := 0, winY := 0, errCode := 0 }
    rfl rfl rfl

/-! ### Claim C9 (factory null and non-null results) -/

/-- Claim C9: both factories return NULL when no display is configured;
`CreateForWindow` additionally returns NULL when target resolution
yields the failure sentinel; otherwise each returns an instance bound to
the resolved target (the resolved toplevel window, resp. the default
root window). -/
theorem factories_null_and_bound (query query2 : Nat → Option (Nat × Nat))
    (fuel fuel2 win win2 defaultRoot k k2 w2 : Nat) (screen : Int)
    (h1 : getTopLevelWindow query fuel win = some (xNone, k))
    (h2 : getTopLevelWindow query2 fuel2 win2 = some (w2, k2))
    (h3 : w2 ≠ xNone) :
    createForWindow false query fuel win = some none
  ∧ createForScreen false defaultRoot screen = none
  ∧ createForWindow true query fuel win = some none
  ∧ createForWindow true query2 fuel2 win2 = some (some (mkMonitor w2))
  ∧ createForScreen true defaultRoot screen = some (mkMonitor defaultRoot) := by
  refine ⟨rfl, rfl, ?_, ?_, rfl⟩
  · unfold createForWindow
    rw [if_neg (by simp), h1]
    simp
  · unfold createForWindow
    rw [if_neg (by simp), h2]
    simp [h3]

/-- Witness for `factories_null_and_bound`: with the sample tree, window
9 fails to resolve (NULL), window 7 resolves to itself (instance bound
to 7), and both factories behave as claimed with and without a
display. -/
theorem factories_null_and_bound_witness :
    (getTopLevelWindow sampleTree 1 9 = some (xNone, 0)
      ∧ getTopLevelWindow sampleTree 1 7 = some (7, 0) ∧ (7 : Nat) ≠ xNone)
  ∧ (createForWindow false sampleTree 1 9 = some none
      ∧ createForScreen false 4 5 = none
      ∧ createForWindow true sampleTree 1 9 = some none
      ∧ createForWindow true sampleTree 1 7 = some (some (mkMonitor 7))
      ∧ createForScreen true 4 5 = some (mkMonitor 4)) :=
  ⟨⟨by decide, by decide, by decide⟩,
   factories_null_and_bound sampleTree sampleTree 1 1 9 7 4 0 0 7 5
     (by decide) (by decide) (by decide)⟩

/-! ### Claim C10 (screen id ignored) -/

/-- Claim C10: `CreateForScreen` ignores its screen-identifier argument:
any two screen ids give identical results, and when a display is
configured the result is the monitor bound to the default root window,
so different screen ids observe the same target surface. -/
theorem createForScreen_ignores_screen (hasDisplay : Bool)
    (defaultRoot : Nat) (screen screen2 : Int) :
    createForScreen hasDisplay defaultRoot screen
      = createForScreen hasDisplay defaultRoot screen2
  ∧ (hasDisplay = true →
      createForScreen hasDisplay defaultRoot screen
        = some (mkMonitor defaultRoot)) := by
  refine ⟨rfl, ?_⟩
  intro h
  subst h
  rfl

/-- Witness for `createForScreen_ignores_screen` at screen ids 0 and
99. -/
theorem createForScreen_ignores_screen_witness :
    createForScreen true 4 0 = createForScreen true 4 99
  ∧ (true = true → createForScreen true 4 0 = some (mkMonitor 4)) :=
  createForScreen_ignores_screen true 4 0 99

end MouseCursorMonitor
